import Mathlib

/-!
Shallow embedding of the UNICORN random-beacon state machine from
`src/lib.rs` (`Unicorn<I, C, R, D>`).

Modelling choices, each mirroring the Rust source:
* Bytes (`Vec<u8>`) are `List Nat`.
* The identifier type `I` is instantiated to `Nat`, matching the `u64`
  identifiers of `SimpleSeedCommitment` / `SimpleVdfResult` in the tests and
  the `u32` peer ids of the driver.
* The digest type parameter `D` becomes an explicit hash-function argument
  `H : List Nat → List Nat`; for the golden vectors it is instantiated with
  an executable SHA-256 defined below.
* `HashMap<K, V>` becomes an association list with unique keys.  `insert`
  replaces the value when the key is present (exactly `HashMap::insert`) and
  appends otherwise.  `HashMap` iteration order is unspecified in Rust; the
  association list fixes one admissible order (insertion order).  Every
  statement proved below about a concrete beacon is insensitive to that
  choice: the counterexamples use frequency tables whose decisive minimum or
  maximum is attained by a unique value.
* Each `&mut self` method returning `Result<(), UnicornError>` becomes a
  function `Unicorn → Except UnicornError Unit × Unicorn` returning the
  status together with the post-state; an early `return Err(..)` yields the
  state as mutated so far (for this code: unchanged).
-/

/-- Enum `UnicornError` from `src/lib.rs`. -/
inductive UnicornError where
  | NotCollectingSeedCommitments
  | NotEnoughSeedCommitments
  | NotCollectingVdfResults
  | NotEnoughVdfResults
deriving DecidableEq, Repr

/-- Enum `UnicornState` from `src/lib.rs`. -/
inductive UnicornState where
  | CollectingSeedCommitments
  | SeedReady
  | RandomnessReady
deriving DecidableEq, Repr

/-- A seed commitment: the `SeedCommitment` trait's observable data
`{id, value}` (as in the tests' `SimpleSeedCommitment`). -/
structure SeedCommitment where
  id : Nat
  value : List Nat
deriving DecidableEq, Repr

/-- A VDF result: the `VdfResult` trait's observable data `{id, seed, value}`
(as in the tests' `SimpleVdfResult`). -/
structure VdfResult where
  id : Nat
  seed : List Nat
  value : List Nat
deriving DecidableEq, Repr

/-- Comparison of commitments by id, the sort key of `calculate_seed`
(`sort_unstable_by_key(|k| k.id())`). -/
def idLe (a b : SeedCommitment) : Prop := a.id ≤ b.id

instance : DecidableRel idLe := fun a b => Nat.decLe a.id b.id

instance : IsTotal SeedCommitment idLe := ⟨fun a b => Nat.le_total a.id b.id⟩

instance : IsTrans SeedCommitment idLe := ⟨fun _ _ _ h1 h2 => Nat.le_trans h1 h2⟩

/-- Model of `HashMap::insert`: replace in place when the key is present, append
otherwise. -/
def mapInsert {α : Type} (k : Nat) (v : α) : List (Nat × α) → List (Nat × α)
  | [] => [(k, v)]
  | (k', v') :: rest =>
      if k' = k then (k, v) :: rest else (k', v') :: mapInsert k v rest

/-- Model of `HashMap` lookup on the association list. -/
def mapLookup {α : Type} (k : Nat) : List (Nat × α) → Option α
  | [] => none
  | (k', v') :: rest => if k' = k then some v' else mapLookup k rest

/-- The `Unicorn` struct from `src/lib.rs`. -/
structure Unicorn where
  state : UnicornState
  seed_commitments : List (Nat × SeedCommitment)
  vdf_results : List (Nat × VdfResult)
  seed : Option (List Nat)
  randomness : Option (List Nat)
  threshold : Nat
deriving DecidableEq, Repr

namespace Unicorn

/-- Constructor `Unicorn::new(threshold)`. -/
def new (threshold : Nat) : Unicorn :=
  { state := .CollectingSeedCommitments
    seed_commitments := []
    vdf_results := []
    seed := none
    randomness := none
    threshold := threshold }

/-- Method `Unicorn::calculate_seed`: collect the stored commitments, sort them by
`id` (`sort_unstable_by_key` — an unstable sort; this model fixes one
admissible sorted rearrangement), concatenate their `value` bytes and hash
once. -/
def calculate_seed (H : List Nat → List Nat) (u : Unicorn) : List Nat :=
  let commitments :=
    List.insertionSort idLe (u.seed_commitments.map Prod.snd)
  H (commitments.flatMap SeedCommitment.value)

/-- Method `Unicorn::finalize_seed`.  Note that the source checks only
`seed_commitments.len() >= threshold`; it never inspects `state`. -/
def finalize_seed (H : List Nat → List Nat) (u : Unicorn) :
    Except UnicornError Unit × Unicorn :=
  if u.seed_commitments.length ≥ u.threshold then
    (.ok (), { u with seed := some (calculate_seed H u), state := .SeedReady })
  else
    (.error .NotEnoughSeedCommitments, u)

/-- Method `Unicorn::add_seed_commitment`. -/
def add_seed_commitment (u : Unicorn) (c : SeedCommitment) :
    Except UnicornError Unit × Unicorn :=
  if u.state ≠ UnicornState.CollectingSeedCommitments then
    (.error .NotCollectingSeedCommitments, u)
  else
    (.ok (), { u with seed_commitments := mapInsert c.id c u.seed_commitments })

/-- Method `Unicorn::add_vdf_result`. -/
def add_vdf_result (u : Unicorn) (r : VdfResult) :
    Except UnicornError Unit × Unicorn :=
  if u.state ≠ UnicornState.SeedReady then
    (.error .NotCollectingVdfResults, u)
  else
    (.ok (), { u with vdf_results := mapInsert r.id r u.vdf_results })

/-- The body of the `for` loop of `most_frequent_vdf_result`:
`*freq_map.entry(res.value()).or_insert(0) += 1`. -/
def bumpFreq (m : List (List Nat × Nat)) (v : List Nat) : List (List Nat × Nat) :=
  match m with
  | [] => [(v, 1)]
  | (v', n) :: rest =>
      if v' = v then (v, n + 1) :: rest else (v', n) :: bumpFreq rest v

/-- Method `Unicorn::most_frequent_vdf_result`: build the frequency table over the
stored result values, sort it ascending by frequency with an unstable sort,
and take the FIRST entry — i.e. an entry of minimal frequency, despite the
function's name. -/
def most_frequent_vdf_result (u : Unicorn) : Option (List Nat × Nat) :=
  let freq_map := (u.vdf_results.map Prod.snd).foldl (fun m r => bumpFreq m r.value) []
  let freq_vec := List.insertionSort (fun a b => a.2 ≤ b.2) freq_map
  freq_vec.head?

/-- Method `Unicorn::finalize_vdf_result`. -/
def finalize_vdf_result (H : List Nat → List Nat) (u : Unicorn) :
    Except UnicornError Unit × Unicorn :=
  match u.most_frequent_vdf_result with
  | some (res, freq) =>
      if freq < u.threshold then
        (.error .NotEnoughVdfResults, u)
      else
        (.ok (), { u with randomness := some (H res), state := .RandomnessReady })
  | none => (.error .NotEnoughVdfResults, u)

/-- Method `Unicorn::reset`. -/
def reset (u : Unicorn) : Unicorn :=
  { state := .CollectingSeedCommitments
    seed_commitments := []
    vdf_results := []
    seed := none
    randomness := none
    threshold := u.threshold }

end Unicorn

/-!
Executable SHA-256 (FIPS 180-4) over byte lists, used to instantiate the
digest parameter `D = Sha256` for the golden-vector claims.  Words are `Nat`
values kept below `2 ^ 32` by explicit reduction `% 4294967296`.
-/

/-- Right rotation of a 32-bit word. -/
def rotr32 (n x : Nat) : Nat :=
  ((x >>> n) ||| (x <<< (32 - n))) % 4294967296

/-- SHA-256 `Ch(x, y, z)`; `¬x` is `x ^^^ 0xffffffff` for `x < 2 ^ 32`. -/
def shaCh (x y z : Nat) : Nat :=
  (x &&& y) ^^^ ((x ^^^ 4294967295) &&& z)

/-- SHA-256 `Maj(x, y, z)`. -/
def shaMaj (x y z : Nat) : Nat :=
  (x &&& y) ^^^ (x &&& z) ^^^ (y &&& z)

/-- SHA-256 `Σ0`. -/
def shaBigSigma0 (x : Nat) : Nat := rotr32 2 x ^^^ rotr32 13 x ^^^ rotr32 22 x

/-- SHA-256 `Σ1`. -/
def shaBigSigma1 (x : Nat) : Nat := rotr32 6 x ^^^ rotr32 11 x ^^^ rotr32 25 x

/-- SHA-256 `σ0`. -/
def shaSmallSigma0 (x : Nat) : Nat := rotr32 7 x ^^^ rotr32 18 x ^^^ (x >>> 3)

/-- SHA-256 `σ1`. -/
def shaSmallSigma1 (x : Nat) : Nat := rotr32 17 x ^^^ rotr32 19 x ^^^ (x >>> 10)

/-- The 64 SHA-256 round constants (written in decimal). -/
def shaK : List Nat :=
  [1116352408, 1899447441, 3049323471, 3921009573, 961987163,
   1508970993, 2453635748, 2870763221, 3624381080, 310598401,
   607225278, 1426881987, 1925078388, 2162078206, 2614888103,
   3248222580, 3835390401, 4022224774, 264347078, 604807628,
   770255983, 1249150122, 1555081692, 1996064986, 2554220882,
   2821834349, 2952996808, 3210313671, 3336571891, 3584528711,
   113926993, 338241895, 666307205, 773529912, 1294757372,
   1396182291, 1695183700, 1986661051, 2177026350, 2456956037,
   2730485921, 2820302411, 3259730800, 3345764771, 3516065817,
   3600352804, 4094571909, 275423344, 430227734, 506948616,
   659060556, 883997877, 958139571, 1322822218, 1537002063,
   1747873779, 1955562222, 2024104815, 2227730452, 2361852424,
   2428436474, 2756734187, 3204031479, 3329325298]

/-- Big-endian encoding of `x` into `n` bytes. -/
def natToBytesBE : Nat → Nat → List Nat
  | 0, _ => []
  | n + 1, x => natToBytesBE n (x / 256) ++ [x % 256]

/-- Group bytes into big-endian 32-bit words (input length a multiple of 4). -/
def bytesToWords : List Nat → List Nat
  | b0 :: b1 :: b2 :: b3 :: rest =>
      (((b0 * 256 + b1) * 256 + b2) * 256 + b3) :: bytesToWords rest
  | _ => []

/-- SHA-256 padding: append `0x80`, zeros to 56 mod 64, then the 64-bit
big-endian bit length. -/
def shaPad (msg : List Nat) : List Nat :=
  let l := msg.length
  let k := (119 - l % 64) % 64
  msg ++ 128 :: List.replicate k 0 ++ natToBytesBE 8 (8 * l)

/-- Extend 16 message-schedule words to 64. -/
def shaSchedule (ws : List Nat) : List Nat :=
  (List.range 48).foldl
    (fun w _ =>
      let i := w.length
      w ++ [(shaSmallSigma1 (w.getD (i - 2) 0) + w.getD (i - 7) 0 +
             shaSmallSigma0 (w.getD (i - 15) 0) + w.getD (i - 16) 0) % 4294967296])
    ws

/-- Working variables of the SHA-256 compression loop. -/
structure ShaState where
  a : Nat
  b : Nat
  c : Nat
  d : Nat
  e : Nat
  f : Nat
  g : Nat
  h : Nat
deriving Repr

/-- One round of the SHA-256 compression loop, consuming `(Kₜ, Wₜ)`. -/
def shaRound (s : ShaState) (kw : Nat × Nat) : ShaState :=
  let t1 := (s.h + shaBigSigma1 s.e + shaCh s.e s.f s.g + kw.1 + kw.2) % 4294967296
  let t2 := (shaBigSigma0 s.a + shaMaj s.a s.b s.c) % 4294967296
  { a := (t1 + t2) % 4294967296, b := s.a, c := s.b, d := s.c
    e := (s.d + t1) % 4294967296, f := s.e, g := s.f, h := s.g }

/-- Compress one 16-word block into the chaining state. -/
def shaBlock (s0 : ShaState) (block : List Nat) : ShaState :=
  let s := (shaK.zip (shaSchedule block)).foldl shaRound s0
  { a := (s0.a + s.a) % 4294967296, b := (s0.b + s.b) % 4294967296
    c := (s0.c + s.c) % 4294967296, d := (s0.d + s.d) % 4294967296
    e := (s0.e + s.e) % 4294967296, f := (s0.f + s.f) % 4294967296
    g := (s0.g + s.g) % 4294967296, h := (s0.h + s.h) % 4294967296 }

/-- Fold the compression function over the padded message, 16 words at a
time. -/
def shaBlocks (s : ShaState) : List Nat → ShaState
  | w0 :: w1 :: w2 :: w3 :: w4 :: w5 :: w6 :: w7 ::
    w8 :: w9 :: w10 :: w11 :: w12 :: w13 :: w14 :: w15 :: rest =>
      shaBlocks
        (shaBlock s [w0, w1, w2, w3, w4, w5, w6, w7,
                     w8, w9, w10, w11, w12, w13, w14, w15]) rest
  | _ => s

/-- Initial SHA-256 chaining state (decimal). -/
def shaInit : ShaState :=
  { a := 1779033703, b := 3144134277, c := 1013904242, d := 2773480762
    e := 1359893119, f := 2600822924, g := 528734635, h := 1541459225 }

/-- SHA-256 of a byte list, as 32 output bytes. -/
def sha256 (msg : List Nat) : List Nat :=
  let s := shaBlocks shaInit (bytesToWords (shaPad msg))
  natToBytesBE 4 s.a ++ natToBytesBE 4 s.b ++ natToBytesBE 4 s.c ++
  natToBytesBE 4 s.d ++ natToBytesBE 4 s.e ++ natToBytesBE 4 s.f ++
  natToBytesBE 4 s.g ++ natToBytesBE 4 s.h

/-!
Driver machinery: operations, reachability, and the concrete beacons used to
evaluate the claims on explicit inputs.
-/

instance : DecidableEq (Except UnicornError Unit)
  | .ok (), .ok () => isTrue rfl
  | .error e1, .error e2 =>
      if h : e1 = e2 then isTrue (by rw [h]) else isFalse (fun hh => h (by injection hh))
  | .ok _, .error _ => isFalse (fun h => Except.noConfusion h)
  | .error _, .ok _ => isFalse (fun h => Except.noConfusion h)

/-- A digest-independent concrete hash (the identity), used where a claim
does not depend on the digest `D`. -/
def idHash : List Nat → List Nat := fun b => b

/-- One mutating call of the beacon API. -/
inductive UnicornOp where
  | addCommitment : SeedCommitment → UnicornOp
  | finalizeSeed : UnicornOp
  | addResult : VdfResult → UnicornOp
  | finalizeVdf : UnicornOp

/-- The post-state of one API call (a failed call leaves the receiver as the
source left it, i.e. unchanged). -/
def applyOp (H : List Nat → List Nat) (u : Unicorn) : UnicornOp → Unicorn
  | .addCommitment c => (Unicorn.add_seed_commitment u c).2
  | .finalizeSeed => (Unicorn.finalize_seed H u).2
  | .addResult r => (Unicorn.add_vdf_result u r).2
  | .finalizeVdf => (Unicorn.finalize_vdf_result H u).2

/-- States reachable from `Unicorn::new(t)` by any finite sequence of API
calls. -/
inductive Reachable (H : List Nat → List Nat) (t : Nat) : Unicorn → Prop where
  | base : Reachable H t (Unicorn.new t)
  | step : ∀ {u : Unicorn} (op : UnicornOp), Reachable H t u → Reachable H t (applyOp H u op)

/-- Run a sequence of API calls from `Unicorn::new(t)`. -/
def runOps (H : List Nat → List Nat) (t : Nat) (ops : List UnicornOp) : Unicorn :=
  ops.foldl (applyOp H) (Unicorn.new t)

/-- Insert a list of seed commitments one call at a time. -/
def addAll (u : Unicorn) (cs : List SeedCommitment) : Unicorn :=
  cs.foldl (fun v c => (Unicorn.add_seed_commitment v c).2) u

/-- The association list obtained by `HashMap::insert`-ing each commitment of
`cs` under its id, starting from `acc`. -/
def buildMap (acc : List (Nat × SeedCommitment)) (cs : List SeedCommitment) :
    List (Nat × SeedCommitment) :=
  cs.foldl (fun m c => mapInsert c.id c m) acc

/-- Beacon for claim C1: threshold 1, result values `[0]`, `[1]`, `[1]`. -/
def beaconC1 : Unicorn :=
  runOps idHash 1
    [.addCommitment ⟨0, [0]⟩, .finalizeSeed,
     .addResult ⟨0, [], [0]⟩, .addResult ⟨1, [], [1]⟩, .addResult ⟨2, [], [1]⟩]

/-- Beacon for claim C2: threshold 2, result values `[0]`, `[0]`, `[1]`. -/
def beaconC2 : Unicorn :=
  runOps idHash 2
    [.addCommitment ⟨0, [0]⟩, .addCommitment ⟨1, [1]⟩, .finalizeSeed,
     .addResult ⟨0, [], [0]⟩, .addResult ⟨1, [], [0]⟩, .addResult ⟨2, [], [1]⟩]

/-- Beacon for claim C3's counterexample: threshold 1, one commitment,
already finalized once (so its phase is `SeedReady`). -/
def beaconC3 : Unicorn :=
  runOps idHash 1 [.addCommitment ⟨0, [0]⟩, .finalizeSeed]

/-- Beacon for claim C5's counterexample: two commitments with the same id
added in sequence. -/
def beaconC5 : Unicorn :=
  runOps idHash 3 [.addCommitment ⟨0, [1]⟩, .addCommitment ⟨0, [2]⟩]

/-- The call sequence for claim C4's counterexample: produce randomness, then
call `finalize_seed` once more. -/
def opsC4 : List UnicornOp :=
  [.addCommitment ⟨0, [0]⟩, .finalizeSeed, .addResult ⟨0, [], [5]⟩, .finalizeVdf,
   .finalizeSeed]

/-- A reachable beacon in phase `RandomnessReady` (the C4 sequence without
its final call). -/
def beaconC4ready : Unicorn :=
  runOps idHash 1 [.addCommitment ⟨0, [0]⟩, .finalizeSeed, .addResult ⟨0, [], [5]⟩, .finalizeVdf]

/-- A beacon in phase `SeedReady` with empty maps (threshold 0 finalizes at
once), used to exercise the VDF-collecting phase. -/
def beaconSeedReady : Unicorn := (Unicorn.finalize_seed idHash (Unicorn.new 0)).2

/-- Beacon for claim C6's golden vector: threshold 3 and the three
commitments of the spec's first golden vector. -/
def beaconGolden : Unicorn :=
  runOps sha256 3
    [.addCommitment ⟨0, [0, 0, 0]⟩, .addCommitment ⟨1, [1, 1, 1]⟩,
     .addCommitment ⟨2, [2, 2, 2]⟩]

/-- The spec's golden seed
`4333ddceb169e2f1741ae48779c9b647154fd69affc8b61f050de97a87945ba3`. -/
def goldenSeed : List Nat :=
  [0x43, 0x33, 0xdd, 0xce, 0xb1, 0x69, 0xe2, 0xf1, 0x74, 0x1a, 0xe4, 0x87,
   0x79, 0xc9, 0xb6, 0x47, 0x15, 0x4f, 0xd6, 0x9a, 0xff, 0xc8, 0xb6, 0x1f,
   0x05, 0x0d, 0xe9, 0x7a, 0x87, 0x94, 0x5b, 0xa3]

/-- Strict comparison of commitments by id; antisymmetric (vacuously), which
is what the sorted-lists-are-equal argument needs. -/
def idLt (a b : SeedCommitment) : Prop := a.id < b.id

instance : IsAntisymm SeedCommitment idLt :=
  ⟨fun _ _ h1 h2 => absurd h2 (Nat.lt_asymm h1)⟩



/-!
Helper lemmas about the association-list map and the beacon operations.
-/

theorem mapLookup_mapInsert_self {α : Type} (k : Nat) (v : α)
    (l : List (Nat × α)) : mapLookup k (mapInsert k v l) = some v := by
  induction l with
  | nil => simp [mapInsert, mapLookup]
  | cons p rest ih =>
      obtain ⟨k', v'⟩ := p
      by_cases h : k' = k
      · subst h
        simp [mapInsert, mapLookup]
      · simp [mapInsert, mapLookup, h, ih]

theorem mapLookup_mapInsert_ne {α : Type} (k k' : Nat) (v : α)
    (l : List (Nat × α)) (h : k ≠ k') :
    mapLookup k (mapInsert k' v l) = mapLookup k l := by
  induction l with
  | nil => simp [mapInsert, mapLookup, Ne.symm h]
  | cons p rest ih =>
      obtain ⟨k0, v0⟩ := p
      by_cases h0 : k0 = k'
      · subst h0
        simp [mapInsert, mapLookup, Ne.symm h]
      · by_cases h1 : k0 = k
        · subst h1
          simp [mapInsert, mapLookup, h0]
        · simp [mapInsert, mapLookup, h0, h1, ih]

theorem mapInsert_fresh {α : Type} (k : Nat) (v : α) (l : List (Nat × α))
    (h : k ∉ l.map Prod.fst) : mapInsert k v l = l ++ [(k, v)] := by
  induction l with
  | nil => simp [mapInsert]
  | cons p rest ih =>
      obtain ⟨k0, v0⟩ := p
      simp only [List.map_cons, List.mem_cons] at h
      push_neg at h
      simp [mapInsert, Ne.symm h.1, ih h.2]

theorem add_seed_commitment_snd (u : Unicorn) (c : SeedCommitment)
    (h : u.state = UnicornState.CollectingSeedCommitments) :
    (Unicorn.add_seed_commitment u c).2 =
      { u with seed_commitments := mapInsert c.id c u.seed_commitments } := by
  simp [Unicorn.add_seed_commitment, h]

theorem addAll_eq (cs : List SeedCommitment) (u : Unicorn)
    (h : u.state = UnicornState.CollectingSeedCommitments) :
    addAll u cs = { u with seed_commitments := buildMap u.seed_commitments cs } := by
  induction cs generalizing u with
  | nil => simp [addAll, buildMap]
  | cons c cs ih =>
      have step : addAll u (c :: cs) = addAll (Unicorn.add_seed_commitment u c).2 cs := by
        simp [addAll]
      rw [step, add_seed_commitment_snd u c h]
      rw [ih { u with seed_commitments := mapInsert c.id c u.seed_commitments } h]
      rfl

theorem buildMap_fresh (cs : List SeedCommitment)
    (acc : List (Nat × SeedCommitment))
    (hacc : ∀ c ∈ cs, c.id ∉ acc.map Prod.fst)
    (hn : (cs.map SeedCommitment.id).Nodup) :
    buildMap acc cs = acc ++ cs.map (fun c => (c.id, c)) := by
  induction cs generalizing acc with
  | nil => simp [buildMap]
  | cons c cs ih =>
      have step : buildMap acc (c :: cs) = buildMap (mapInsert c.id c acc) cs := by
        simp [buildMap]
      rw [step, mapInsert_fresh c.id c acc (hacc c (List.mem_cons_self c cs))]
      simp only [List.map_cons, List.nodup_cons] at hn
      rw [ih (acc ++ [(c.id, c)]) ?_ hn.2]
      · simp
      · intro c' hc'
        simp only [List.map_append, List.mem_append, List.map_cons, List.map_nil,
          List.mem_singleton]
        push_neg
        refine ⟨hacc c' (List.mem_cons_of_mem c hc'), ?_⟩
        intro he
        exact hn.1 (he ▸ List.mem_map_of_mem SeedCommitment.id hc')

theorem add_vdf_result_snd (u : Unicorn) (r : VdfResult)
    (h : u.state = UnicornState.SeedReady) :
    (Unicorn.add_vdf_result u r).2 =
      { u with vdf_results := mapInsert r.id r u.vdf_results } := by
  simp [Unicorn.add_vdf_result, h]

theorem add_seed_commitment_frame (u : Unicorn) (c : SeedCommitment) :
    (Unicorn.add_seed_commitment u c).2.state = u.state ∧
    (Unicorn.add_seed_commitment u c).2.randomness = u.randomness := by
  unfold Unicorn.add_seed_commitment
  split <;> exact ⟨rfl, rfl⟩

theorem add_vdf_result_frame (u : Unicorn) (r : VdfResult) :
    (Unicorn.add_vdf_result u r).2.state = u.state ∧
    (Unicorn.add_vdf_result u r).2.randomness = u.randomness := by
  unfold Unicorn.add_vdf_result
  split <;> exact ⟨rfl, rfl⟩

theorem finalize_seed_frame (H : List Nat → List Nat) (u : Unicorn) :
    (Unicorn.finalize_seed H u).2.randomness = u.randomness ∧
    ((Unicorn.finalize_seed H u).2.state = UnicornState.SeedReady ∨
      (Unicorn.finalize_seed H u).2 = u) := by
  unfold Unicorn.finalize_seed
  split
  · exact ⟨rfl, Or.inl rfl⟩
  · exact ⟨rfl, Or.inr rfl⟩

theorem finalize_vdf_result_frame (H : List Nat → List Nat) (u : Unicorn) :
    ((Unicorn.finalize_vdf_result H u).2.state = UnicornState.RandomnessReady ∧
      (Unicorn.finalize_vdf_result H u).2.randomness.isSome = true) ∨
    (Unicorn.finalize_vdf_result H u).2 = u := by
  unfold Unicorn.finalize_vdf_result
  split
  · split
    · exact Or.inr rfl
    · exact Or.inl ⟨rfl, rfl⟩
  · exact Or.inr rfl

theorem sorted_strict_of_nodup (s : List SeedCommitment)
    (hs : List.Sorted idLe s) (hnd : (s.map SeedCommitment.id).Nodup) :
    List.Sorted idLt s := by
  have h2 : s.Pairwise (fun a b => a.id ≠ b.id) := List.pairwise_map.mp hnd
  exact (List.Pairwise.and hs h2).imp (fun h => Nat.lt_of_le_of_ne h.1 h.2)

theorem insertionSort_eq_of_perm (l1 l2 : List SeedCommitment)
    (hp : l1.Perm l2) (hn : (l1.map SeedCommitment.id).Nodup) :
    List.insertionSort idLe l1 = List.insertionSort idLe l2 := by
  have hn1 : ((List.insertionSort idLe l1).map SeedCommitment.id).Nodup :=
    (((List.perm_insertionSort idLe l1).map SeedCommitment.id).nodup_iff).mpr hn
  have hn2 : ((List.insertionSort idLe l2).map SeedCommitment.id).Nodup :=
    (((List.perm_insertionSort idLe l2).map SeedCommitment.id).nodup_iff).mpr
      (((hp.map SeedCommitment.id).nodup_iff).mp hn)
  exact List.eq_of_perm_of_sorted
    ((List.perm_insertionSort idLe l1).trans (hp.trans (List.perm_insertionSort idLe l2).symm))
    (sorted_strict_of_nodup _ (List.sorted_insertionSort idLe l1) hn1)
    (sorted_strict_of_nodup _ (List.sorted_insertionSort idLe l2) hn2)

theorem addAll_new (t : Nat) (l : List SeedCommitment)
    (hn : (l.map SeedCommitment.id).Nodup) :
    addAll (Unicorn.new t) l =
      { Unicorn.new t with seed_commitments := l.map (fun c => (c.id, c)) } := by
  rw [addAll_eq l (Unicorn.new t) rfl]
  rw [show (Unicorn.new t).seed_commitments = [] from rfl]
  rw [buildMap_fresh l [] (by simp) hn]
  simp

/-!
Claim theorems.
-/

/-- Claim C1 (code bug, evaluation at the failing input): with threshold 1
and stored result values `[0]`, `[1]`, `[1]`, the value `[1]` has the
highest frequency (2 against 1), yet `finalize_vdf_result` succeeds and
stores `randomness = H([0])`: `most_frequent_vdf_result` sorts the frequency
table ascending and takes the first entry, i.e. a least-frequent value. -/
theorem C1_eval_least_frequent_selected :
    ((beaconC1.vdf_results.map Prod.snd).map VdfResult.value).count [1] = 2 ∧
    ((beaconC1.vdf_results.map Prod.snd).map VdfResult.value).count [0] = 1 ∧
    Unicorn.most_frequent_vdf_result beaconC1 = some ([0], 1) ∧
    (Unicorn.finalize_vdf_result idHash beaconC1).1 = Except.ok () ∧
    (Unicorn.finalize_vdf_result idHash beaconC1).2.randomness = some (idHash [0]) ∧
    idHash [0] ≠ idHash [1] := by decide

/-- Claim C2 (code bug, evaluation at the failing input): with threshold 2
and stored result values `[0]`, `[0]`, `[1]`, the maximum frequency is
2 ≥ threshold, so the claim demands `Ok`; the code compares the MINIMUM
frequency (1) against the threshold and fails with `NotEnoughVdfResults`. -/
theorem C2_eval_min_frequency_checked :
    beaconC2.threshold = 2 ∧
    ((beaconC2.vdf_results.map Prod.snd).map VdfResult.value).count [0] = 2 ∧
    (Unicorn.finalize_vdf_result idHash beaconC2).1 =
      Except.error UnicornError.NotEnoughVdfResults := by decide

/-- Claim C3 (counterexample): a beacon whose phase is `SeedReady` on which
`finalize_seed` nevertheless returns `Ok` — the claim says every call with
phase ≠ `CollectingSeedCommitments` returns an error. -/
theorem C3_counterexample_ok_in_seedready :
    beaconC3.state = UnicornState.SeedReady ∧
    (Unicorn.finalize_seed idHash beaconC3).1 = Except.ok () := by decide

/-- Claim C3 (amended): `finalize_seed` never inspects the phase.  In every
phase it succeeds iff `threshold ≤ |commitments|`, its only error is
`NotEnoughSeedCommitments` (returned iff `|commitments| < threshold`), and
its status is invariant under changing the phase. -/
theorem C3_finalize_seed_threshold_only (H : List Nat → List Nat) (u : Unicorn) :
    ((Unicorn.finalize_seed H u).1 = Except.ok () ↔
      u.threshold ≤ u.seed_commitments.length) ∧
    ((Unicorn.finalize_seed H u).1 =
        Except.error UnicornError.NotEnoughSeedCommitments ↔
      u.seed_commitments.length < u.threshold) ∧
    (∀ s : UnicornState,
      (Unicorn.finalize_seed H { u with state := s }).1 =
        (Unicorn.finalize_seed H u).1) := by
  by_cases h : u.seed_commitments.length ≥ u.threshold
  · refine ⟨?_, ?_, ?_⟩
    · simp [Unicorn.finalize_seed, h]
    · simp [Unicorn.finalize_seed, h]
    · intro s
      simp [Unicorn.finalize_seed, h]
  · refine ⟨?_, ?_, ?_⟩
    · simp [Unicorn.finalize_seed, h]
    · simp [Unicorn.finalize_seed, h]
      omega
    · intro s
      simp [Unicorn.finalize_seed, h]

/-- Claim C5 (counterexample): two commitments with the same id 0 and
values `[1]` then `[2]`; the claim says the first is retained, but the map
holds the second (`HashMap::insert` overwrites). -/
theorem C5_counterexample_overwrite :
    mapLookup 0 beaconC5.seed_commitments = some ⟨0, [2]⟩ ∧
    mapLookup 0 beaconC5.seed_commitments ≠ some ⟨0, [1]⟩ := by decide

/-- Claim C5 (amended): in the accepting phase a repeated id OVERWRITES:
`add_seed_commitment` retains the last commitment per id, and
`add_vdf_result` retains the last VDF result per id. -/
theorem C5_repeated_id_last_wins (u v : Unicorn) (c c' : SeedCommitment)
    (r r' : VdfResult)
    (hu : u.state = UnicornState.CollectingSeedCommitments)
    (hv : v.state = UnicornState.SeedReady)
    (hcid : c.id = c'.id) (hrid : r.id = r'.id) :
    mapLookup c.id
      ((Unicorn.add_seed_commitment
          (Unicorn.add_seed_commitment u c).2 c').2.seed_commitments) = some c' ∧
    mapLookup r.id
      ((Unicorn.add_vdf_result
          (Unicorn.add_vdf_result v r).2 r').2.vdf_results) = some r' := by
  constructor
  · rw [add_seed_commitment_snd u c hu]
    rw [add_seed_commitment_snd
      { u with seed_commitments := mapInsert c.id c u.seed_commitments } c' hu]
    dsimp
    rw [hcid]
    exact mapLookup_mapInsert_self c'.id c' _
  · rw [add_vdf_result_snd v r hv]
    rw [add_vdf_result_snd
      { v with vdf_results := mapInsert r.id r v.vdf_results } r' hv]
    dsimp
    rw [hrid]
    exact mapLookup_mapInsert_self r'.id r' _

/-- Witness for C5's amended theorem at concrete inputs. -/
theorem C5_repeated_id_last_wins_witness :
    mapLookup 0
      ((Unicorn.add_seed_commitment
          (Unicorn.add_seed_commitment (Unicorn.new 3) ⟨0, [1]⟩).2
          ⟨0, [2]⟩).2.seed_commitments) = some ⟨0, [2]⟩ ∧
    mapLookup 1
      ((Unicorn.add_vdf_result
          (Unicorn.add_vdf_result beaconSeedReady ⟨1, [], [3]⟩).2
          ⟨1, [], [4]⟩).2.vdf_results) = some ⟨1, [], [4]⟩ :=
  C5_repeated_id_last_wins (Unicorn.new 3) beaconSeedReady
    ⟨0, [1]⟩ ⟨0, [2]⟩ ⟨1, [], [3]⟩ ⟨1, [], [4]⟩ rfl (by decide) rfl rfl

/-- Claim C7: a failed `finalize_seed` or `finalize_vdf_result` leaves the
whole state — phase, seed, randomness, both maps and threshold —
unchanged. -/
theorem C7_failed_finalize_no_mutation (H : List Nat → List Nat) (u : Unicorn) :
    ((Unicorn.finalize_seed H u).1.isOk = false →
      (Unicorn.finalize_seed H u).2 = u) ∧
    ((Unicorn.finalize_vdf_result H u).1.isOk = false →
      (Unicorn.finalize_vdf_result H u).2 = u) := by
  constructor
  · unfold Unicorn.finalize_seed
    split
    · intro h
      exact Bool.noConfusion h
    · intro _
      rfl
  · unfold Unicorn.finalize_vdf_result
    split
    · split
      · intro _
        rfl
      · intro h
        exact Bool.noConfusion h
    · intro _
      rfl

/-- Witness for C7 at a concrete input: a fresh beacon with threshold 3, on
which both finalizers fail and change nothing. -/
theorem C7_failed_finalize_no_mutation_witness :
    (Unicorn.finalize_seed idHash (Unicorn.new 3)).2 = Unicorn.new 3 ∧
    (Unicorn.finalize_vdf_result idHash (Unicorn.new 3)).2 = Unicorn.new 3 :=
  ⟨(C7_failed_finalize_no_mutation idHash (Unicorn.new 3)).1 (by decide),
   (C7_failed_finalize_no_mutation idHash (Unicorn.new 3)).2 (by decide)⟩

/-- Claim C9: `new` does not enforce `threshold ≥ 1`.  With threshold 0 a
fresh beacon finalizes at once: `finalize_seed` returns `Ok`, stores
`seed = H(empty byte string)` and moves the phase to `SeedReady`. -/
theorem C9_zero_threshold_finalizes_immediately (H : List Nat → List Nat) :
    (Unicorn.finalize_seed H (Unicorn.new 0)).1 = Except.ok () ∧
    (Unicorn.finalize_seed H (Unicorn.new 0)).2.seed = some (H []) ∧
    (Unicorn.finalize_seed H (Unicorn.new 0)).2.state = UnicornState.SeedReady :=
  ⟨rfl, rfl, rfl⟩

/-- Claim C4 (counterexample): the operation sequence `opsC4` — gather one
commitment, finalize the seed, gather one VDF result, finalize the
randomness, then call `finalize_seed` once more — reaches a state where
randomness is present but the phase is `SeedReady`, because `finalize_seed`
succeeds in any phase and moves the phase back without clearing
randomness. -/
theorem C4_counterexample_randomness_without_ready :
    Reachable idHash 1 (runOps idHash 1 opsC4) ∧
    (runOps idHash 1 opsC4).randomness.isSome = true ∧
    (runOps idHash 1 opsC4).state ≠ UnicornState.RandomnessReady := by
  refine ⟨?_, by decide, by decide⟩
  show Reachable idHash 1
    (applyOp idHash (applyOp idHash (applyOp idHash (applyOp idHash (applyOp idHash
      (Unicorn.new 1) (.addCommitment ⟨0, [0]⟩)) .finalizeSeed)
      (.addResult ⟨0, [], [5]⟩)) .finalizeVdf) .finalizeSeed)
  exact Reachable.step _ (Reachable.step _ (Reachable.step _
    (Reachable.step _ (Reachable.step _ Reachable.base))))

/-- Claim C4 (amended): in every state reachable from `new(threshold)`, if
the phase is `RandomnessReady` then randomness is present.  (The claimed
converse fails: see the counterexample, where a later `finalize_seed`
success moves the phase back to `SeedReady` while randomness persists.) -/
theorem C4_ready_implies_randomness (H : List Nat → List Nat) (t : Nat)
    (u : Unicorn) (hr : Reachable H t u) :
    u.state = UnicornState.RandomnessReady → u.randomness.isSome = true := by
  induction hr with
  | base => simp [Unicorn.new]
  | step op hu ih =>
      cases op with
      | addCommitment c =>
          dsimp only [applyOp]
          intro hs
          rw [(add_seed_commitment_frame _ c).2]
          refine ih ?_
          rw [← (add_seed_commitment_frame _ c).1]
          exact hs
      | addResult r =>
          dsimp only [applyOp]
          intro hs
          rw [(add_vdf_result_frame _ r).2]
          refine ih ?_
          rw [← (add_vdf_result_frame _ r).1]
          exact hs
      | finalizeSeed =>
          dsimp only [applyOp]
          intro hs
          rcases (finalize_seed_frame H _).2 with h | h
          · rw [h] at hs
            simp at hs
          · rw [h] at hs ⊢
            exact ih hs
      | finalizeVdf =>
          dsimp only [applyOp]
          intro hs
          rcases finalize_vdf_result_frame H _ with h | h
          · exact h.2
          · rw [h] at hs ⊢
            exact ih hs

/-- Witness for C4's amended theorem: a concrete reachable state in phase
`RandomnessReady` whose randomness is present. -/
theorem C4_ready_implies_randomness_witness :
    beaconC4ready.randomness.isSome = true :=
  C4_ready_implies_randomness idHash 1 beaconC4ready
    (show Reachable idHash 1
        (applyOp idHash (applyOp idHash (applyOp idHash (applyOp idHash
          (Unicorn.new 1) (.addCommitment ⟨0, [0]⟩)) .finalizeSeed)
          (.addResult ⟨0, [], [5]⟩)) .finalizeVdf) from
      Reachable.step _ (Reachable.step _ (Reachable.step _
        (Reachable.step _ Reachable.base))))
    (by decide)

theorem finalize_seed_seed_eq (H : List Nat → List Nat) (u : Unicorn) :
    (Unicorn.finalize_seed H u).2.seed =
      if u.threshold ≤ u.seed_commitments.length
      then some (Unicorn.calculate_seed H u)
      else u.seed := by
  unfold Unicorn.finalize_seed
  by_cases h : u.seed_commitments.length ≥ u.threshold
  · rw [if_pos h, if_pos h]
  · rw [if_neg h, if_neg h]

/-- Claim C6: whenever `threshold ≤ |commitments|`, `finalize_seed` returns
`Ok`, moves the phase to `SeedReady` and stores
`seed = H(concat of the value bytes of the stored commitments arranged in
ascending id order)`; and on the spec's golden input (SHA-256, threshold 3,
commitments `{0,[0,0,0]}`, `{1,[1,1,1]}`, `{2,[2,2,2]}`) the stored seed is
`4333ddceb169e2f1741ae48779c9b647154fd69affc8b61f050de97a87945ba3`. -/
theorem C6_finalize_seed_sorted_concat :
    (∀ (H : List Nat → List Nat) (u : Unicorn),
      u.threshold ≤ u.seed_commitments.length →
      (Unicorn.finalize_seed H u).1 = Except.ok () ∧
      (Unicorn.finalize_seed H u).2.state = UnicornState.SeedReady ∧
      ∃ l : List SeedCommitment,
        l.Perm (u.seed_commitments.map Prod.snd) ∧
        List.Sorted idLe l ∧
        (Unicorn.finalize_seed H u).2.seed =
          some (H (l.flatMap SeedCommitment.value))) ∧
    (Unicorn.finalize_seed sha256 beaconGolden).2.seed = some goldenSeed := by
  constructor
  · intro H u h
    unfold Unicorn.finalize_seed
    rw [if_pos h]
    exact ⟨rfl, rfl,
      List.insertionSort idLe (u.seed_commitments.map Prod.snd),
      List.perm_insertionSort idLe _,
      List.sorted_insertionSort idLe _,
      rfl⟩
  · decide

/-- Witness for C6 at the golden input: the threshold hypothesis holds and
`finalize_seed` succeeds with the golden seed. -/
theorem C6_finalize_seed_sorted_concat_witness :
    (Unicorn.finalize_seed sha256 beaconGolden).1 = Except.ok () ∧
    (Unicorn.finalize_seed sha256 beaconGolden).2.seed = some goldenSeed :=
  ⟨(C6_finalize_seed_sorted_concat.1 sha256 beaconGolden (by decide)).1,
   C6_finalize_seed_sorted_concat.2⟩

/-- Claim C8: for a set of commitments with pairwise-distinct ids, inserting
them in either of two orders into a fresh beacon and finalizing yields the
same seed bytes. -/
theorem C8_seed_insertion_order_invariant (H : List Nat → List Nat) (t : Nat)
    (l1 l2 : List SeedCommitment)
    (hn : (l1.map SeedCommitment.id).Nodup) (hp : l1.Perm l2) :
    (Unicorn.finalize_seed H (addAll (Unicorn.new t) l1)).2.seed =
      (Unicorn.finalize_seed H (addAll (Unicorn.new t) l2)).2.seed := by
  have hn2 : (l2.map SeedCommitment.id).Nodup :=
    ((hp.map SeedCommitment.id).nodup_iff).mp hn
  rw [addAll_new t l1 hn, addAll_new t l2 hn2]
  rw [finalize_seed_seed_eq, finalize_seed_seed_eq]
  simp only [Unicorn.calculate_seed]
  rw [List.map_map, List.map_map]
  rw [show (Prod.snd ∘ fun c : SeedCommitment => (c.id, c)) = id from rfl]
  rw [List.map_id, List.map_id]
  rw [List.length_map, List.length_map, hp.length_eq]
  rw [insertionSort_eq_of_perm l1 l2 hp hn]

/-- Witness for C8 at concrete inputs: the two orders of two distinct
commitments produce the same stored seed. -/
theorem C8_seed_insertion_order_invariant_witness :
    (Unicorn.finalize_seed idHash
        (addAll (Unicorn.new 2) [⟨1, [1]⟩, ⟨0, [0]⟩])).2.seed =
      (Unicorn.finalize_seed idHash
        (addAll (Unicorn.new 2) [⟨0, [0]⟩, ⟨1, [1]⟩])).2.seed :=
  C8_seed_insertion_order_invariant idHash 2 [⟨1, [1]⟩, ⟨0, [0]⟩]
    [⟨0, [0]⟩, ⟨1, [1]⟩] (by decide) (by decide)

/-- Claim C10: a successful `add_seed_commitment` changes only the
commitments map, and only at key `c.id`; a successful `add_vdf_result`
changes only the VDF-results map, and only at key `r.id`. -/
theorem C10_add_frame (u v : Unicorn) (c : SeedCommitment) (r : VdfResult)
    (hc : (Unicorn.add_seed_commitment u c).1 = Except.ok ())
    (hr : (Unicorn.add_vdf_result v r).1 = Except.ok ()) :
    ((Unicorn.add_seed_commitment u c).2.state = u.state ∧
     (Unicorn.add_seed_commitment u c).2.seed = u.seed ∧
     (Unicorn.add_seed_commitment u c).2.randomness = u.randomness ∧
     (Unicorn.add_seed_commitment u c).2.threshold = u.threshold ∧
     (Unicorn.add_seed_commitment u c).2.vdf_results = u.vdf_results ∧
     (Unicorn.add_seed_commitment u c).2.seed_commitments =
       mapInsert c.id c u.seed_commitments ∧
     (∀ k, k ≠ c.id →
        mapLookup k (Unicorn.add_seed_commitment u c).2.seed_commitments =
          mapLookup k u.seed_commitments)) ∧
    ((Unicorn.add_vdf_result v r).2.state = v.state ∧
     (Unicorn.add_vdf_result v r).2.seed = v.seed ∧
     (Unicorn.add_vdf_result v r).2.randomness = v.randomness ∧
     (Unicorn.add_vdf_result v r).2.threshold = v.threshold ∧
     (Unicorn.add_vdf_result v r).2.seed_commitments = v.seed_commitments ∧
     (Unicorn.add_vdf_result v r).2.vdf_results =
       mapInsert r.id r v.vdf_results ∧
     (∀ k, k ≠ r.id →
        mapLookup k (Unicorn.add_vdf_result v r).2.vdf_results =
          mapLookup k v.vdf_results)) := by
  have hu : u.state = UnicornState.CollectingSeedCommitments := by
    by_contra hne
    simp [Unicorn.add_seed_commitment, hne] at hc
  have hv : v.state = UnicornState.SeedReady := by
    by_contra hne
    simp [Unicorn.add_vdf_result, hne] at hr
  constructor
  · rw [add_seed_commitment_snd u c hu]
    exact ⟨rfl, rfl, rfl, rfl, rfl, rfl,
      fun k hk => mapLookup_mapInsert_ne k c.id c _ hk⟩
  · rw [add_vdf_result_snd v r hv]
    exact ⟨rfl, rfl, rfl, rfl, rfl, rfl,
      fun k hk => mapLookup_mapInsert_ne k r.id r _ hk⟩

/-- Witness for C10 at concrete inputs: the untouched map is unchanged in
each case. -/
theorem C10_add_frame_witness :
    (Unicorn.add_seed_commitment (Unicorn.new 3) ⟨0, [1]⟩).2.vdf_results =
      (Unicorn.new 3).vdf_results ∧
    (Unicorn.add_vdf_result beaconSeedReady ⟨0, [], [2]⟩).2.seed_commitments =
      beaconSeedReady.seed_commitments :=
  ⟨(C10_add_frame (Unicorn.new 3) beaconSeedReady ⟨0, [1]⟩ ⟨0, [], [2]⟩
      (by decide) (by decide)).1.2.2.2.2.1,
   (C10_add_frame (Unicorn.new 3) beaconSeedReady ⟨0, [1]⟩ ⟨0, [], [2]⟩
      (by decide) (by decide)).2.2.2.2.2.1⟩
